import Mathlib

/-!
Verification development for the textimgbot repository (src/textimgbot.py).

The Python source is shallowly embedded: pure string manipulation is
translated to Lean functions over `String`/`List Char`; filesystem effects of
the render pipeline are modelled by explicit state passing over a map from
paths to file states; the outcome of each external child process (inkscape,
convert) is an oracle parameter, since those tools are outside the program;
Python exceptions are modelled with `Except`.
-/

/-! ## Generic string helpers (Python semantics) -/

/-- Python `s.split(sep)` for a single-character separator, auxiliary:
`acc` is the reversed current field. -/
def splitOnCharAux (sep : Char) : List Char → List Char → List String
  | acc, [] => [String.mk acc.reverse]
  | acc, c :: cs =>
    if c = sep then String.mk acc.reverse :: splitOnCharAux sep [] cs
    else splitOnCharAux sep (c :: acc) cs

/-- Python `text.split('/')` (from `render_images`, line 181). -/
def splitSlash (s : String) : List String := splitOnCharAux '/' [] s.data

lemma strDataAppend (s t : String) : (s ++ t).data = s.data ++ t.data := by
  cases s; cases t; rfl

lemma strExt {s t : String} (h : s.data = t.data) : s = t :=
  congrArg String.mk h

lemma str_ne_append_nonempty (s t : String) (ht : t.data ≠ []) : s ≠ s ++ t := by
  intro h
  apply ht
  have hd := congrArg String.data h
  rw [strDataAppend] at hd
  have h2 : s.data ++ [] = s.data ++ t.data := by simpa using hd
  exact (List.append_cancel_left h2).symm

/-! ## Python `str.format`, restricted to numbered positional fields

`generate_image` (line 145) expands the template with
`template.format(*args)`.  The repository's templates use numbered
positional placeholders (the bot's help text documents `{0}`, `{1}`, …), so
the model covers exactly that fragment: `{n}` is replaced by argument `n`
(an out-of-range index is an error, as Python raises `IndexError`), doubled
braces are literal braces, and any other use of a brace is an error (Python
raises `ValueError`/`KeyError`).  Auto-numbered `{}` and keyword fields are
not used by the repository and are mapped to the error case as well. -/

/-- Take a maximal run of decimal digits off the front of a character list. -/
def takeDigits : List Char → List Char × List Char
  | [] => ([], [])
  | c :: cs =>
    if c.isDigit then
      let p := takeDigits cs
      (c :: p.1, p.2)
    else ([], c :: cs)

/-- Decimal value of a digit run. -/
def digitsToNat (l : List Char) : Nat :=
  l.foldl (fun n c => n * 10 + (c.toNat - '0'.toNat)) 0

/-- One fuel unit is spent per emitted/consumed character, so fuel
`l.length + 1` always suffices; running out of fuel yields the error case. -/
def formatGo (args : List String) : Nat → List Char → Except Unit (List Char)
  | 0, _ => .error ()
  | _ + 1, [] => .ok []
  | fuel + 1, c :: cs =>
    if c = '\x7b' then
      match cs with
      | '\x7b' :: cs' => (formatGo args fuel cs').map (fun r => '\x7b' :: r)
      | _ =>
        match takeDigits cs with
        | ([], _) => .error ()
        | (ds, rest) =>
          match rest with
          | '\x7d' :: rest' =>
            match args.get? (digitsToNat ds) with
            | none => .error ()
            | some a => (formatGo args fuel rest').map (fun r => a.data ++ r)
          | _ => .error ()
    else if c = '\x7d' then
      match cs with
      | '\x7d' :: cs' => (formatGo args fuel cs').map (fun r => '\x7d' :: r)
      | _ => .error ()
    else (formatGo args fuel cs).map (fun r => c :: r)

/-- Python `template.format(*args)` on the supported fragment. -/
def formatStr (tmpl : List Char) (args : List String) : Except Unit String :=
  (formatGo args (tmpl.length + 1) tmpl).map String.mk

example : formatStr "\x7b0\x7d-\x7b1\x7d".data ["Hello/World", "Hello", "World"]
    = .ok "Hello/World-Hello" := rfl

example : formatStr "\x7b5\x7d".data ["a", "b"] = .error () := rfl

/-! ## Filesystem model

The render pipeline's observable side effects are files.  A path maps to
`none` (absent), or to a file that is either a `complete` output of a
successful tool run or a `fragment` left behind by a tool that died midway.
`os.path.isfile` is existence, i.e. `Option.isSome`, regardless of kind. -/

inductive FileKind
  | complete
  | fragment
deriving DecidableEq

abbrev FS := String → Option FileKind

def emptyFS : FS := fun _ => none

def fsSet (fs : FS) (p : String) (k : FileKind) : FS :=
  fun q => if q = p then some k else fs q

def fsDel (fs : FS) (p : String) : FS :=
  fun q => if q = p then none else fs q

lemma fsSet_ne (fs : FS) (p : String) (k : FileKind) (q : String) (h : q ≠ p) :
    fsSet fs p k q = fs q := by
  simp [fsSet, h]

lemma fsDel_ne (fs : FS) (p : String) (q : String) (h : q ≠ p) :
    fsDel fs p q = fs q := by
  simp [fsDel, h]

lemma fsSet_isSome (fs : FS) (p : String) (k : FileKind) (q : String)
    (h : (fs q).isSome = true) : (fsSet fs p k q).isSome = true := by
  by_cases hq : q = p <;> simp [fsSet, hq, h]

/-! ## External Renderer: `generate_image` (lines 143-178)

Each of the two child processes (inkscape producing `output + '.png'`,
convert producing `output`) runs with a 10-second timeout; on timeout the
process is killed.  The embedding does not model wall-clock time; the
per-run outcome of each tool is an oracle:

* `ok`         — exit status 0, target file completely written;
* `failClean`  — non-zero exit status or kill, no target file written;
* `failDirty`  — non-zero exit status or kill, a fragment of the target
                 file was left on disk.

The code's own effects are exact: inkscape's target is `output ++ ".png"`,
convert's target is `output` itself (the final artifact path — there is no
temporary-location-and-rename step for the final file), the intermediate
`.png` is unlinked after the convert stage regardless of outcome, and after
an inkscape failure the function returns `False` without deleting the
intermediate.  Reading the template (`open`, line 144) and expanding it
(`str.format`, line 145) happen outside any `try`, so their failures are
Python exceptions propagating to the caller: modelled as `Except.error`. -/

inductive StageOutcome
  | ok
  | failClean
  | failDirty
deriving DecidableEq

/-- Outcomes of the inkscape stage and of the convert stage for one
`generate_image` run. -/
structure RenderBehavior where
  stage1 : StageOutcome
  stage2 : StageOutcome
deriving DecidableEq

/-- What a tool run does to the filesystem at its target path. -/
def stageEffect (path : String) (o : StageOutcome) (fs : FS) : FS :=
  match o with
  | .ok => fsSet fs path .complete
  | .failClean => fs
  | .failDirty => fsSet fs path .fragment

inductive GenError
  | templateUnreadable
  | formatError
deriving DecidableEq

/-- A template file as seen by `generate_image`: whether `open` succeeds,
and the text it yields. -/
structure TemplateFile where
  readable : Bool
  content : String
deriving DecidableEq

/-- `generate_image(templatefile, output, *args)`: returns the expanded
document (written to the private temporary `.svg`), the boolean result, and
the filesystem after the run; or the Python exception that escaped. -/
def generate_image (tf : TemplateFile) (args : List String) (b : RenderBehavior)
    (output : String) (fs : FS) : Except GenError (String × Bool × FS) :=
  if tf.readable = false then .error .templateUnreadable
  else
    match formatStr tf.content.data args with
    | .error _ => .error .formatError
    | .ok doc =>
      let fs1 := stageEffect (output ++ ".png") b.stage1 fs
      if b.stage1 = StageOutcome.ok then
        let fs2 := stageEffect output b.stage2 fs1
        let fs3 := fsDel fs2 (output ++ ".png")
        .ok (doc, decide (b.stage2 = StageOutcome.ok), fs3)
      else .ok (doc, false, fs1)

lemma stageEffect_ne (path : String) (o : StageOutcome) (fs : FS) (q : String)
    (h : q ≠ path) : stageEffect path o fs q = fs q := by
  cases o <;> simp [stageEffect, fsSet_ne, h]

lemma stageEffect_isSome (path : String) (o : StageOutcome) (fs : FS) (q : String)
    (h : (fs q).isSome = true) : (stageEffect path o fs q).isSome = true := by
  cases o <;> simp [stageEffect, fsSet_isSome, h]

/-! ## Artifact keys and the Render Pipeline: `hashstr` (42-43), `render_images` (180-192)

`hashstr` is `urlsafe_b64encode(sha256(s)).rstrip('=')`.  The SHA-256 digest
itself is a cryptographic black box; the embedding keeps the hash as an
explicit function parameter (`RenderEnv.hash`), so that every theorem states
exactly which idealization of the hash it needs (injectivity for
collision-freedom claims, a dot-free output alphabet --- true of urlsafe
base64 --- for path-disjointness).  The string that is hashed,
`'%s|%s' % (template, text)`, is embedded exactly as `keystring`. -/

/-- The pre-hash string `'%s|%s' % (template, text)` of `render_images`
line 184. -/
def keystring (template text : String) : String := template ++ "|" ++ text

/-- The artifact key of a (template, text) pair, for a given hash model. -/
def artifactKey (hash : String → String) (template text : String) : String :=
  hash (keystring template text)

/-- Ambient configuration of the Render Pipeline: the hash model, the
artifact directory `CFG['images']`, and the outcome oracle giving the
behavior of the external toolchain on each (template name, request text)
render attempt (deterministic across repeated attempts). -/
structure RenderEnv where
  hash : String → String
  imagesDir : String
  behav : String → String → RenderBehavior

/-- `fileid = hashstr('%s|%s' % (template, text))` (line 184). -/
def fileid (env : RenderEnv) (template text : String) : String :=
  env.hash (keystring template text)

/-- `filepath = os.path.join(CFG['images'], fileid + '.jpg')` (line 185). -/
def filepath (env : RenderEnv) (template text : String) : String :=
  env.imagesDir ++ "/" ++ fileid env template text ++ ".jpg"

/-- `args = [text] + text.split('/')` (line 181). -/
def renderArgs (text : String) : List String := text :: splitSlash text

/-- Result of one `render_images` call: the returned list of file ids, the
filesystem afterwards, and the number of `generate_image` invocations the
call performed (the observable used by the caching claims). -/
structure RenderResult where
  ids : List String
  fs : FS
  count : Nat

/-- The loop body of `render_images` (lines 183-191) over the registry
snapshot, threading the filesystem.  A template whose artifact file exists
is appended without rendering; otherwise `generate_image` runs and the id
is appended only on success.  An exception escaping `generate_image`
escapes `render_images` as well (there is no `try` in the source). -/
def render_go (env : RenderEnv) (text : String) (args : List String) :
    List (String × TemplateFile) → FS → Except GenError RenderResult
  | [], fs => .ok ⟨[], fs, 0⟩
  | (t, tf) :: rest, fs =>
    if (fs (filepath env t text)).isSome then
      match render_go env text args rest fs with
      | .error e => .error e
      | .ok r => .ok ⟨fileid env t text :: r.ids, r.fs, r.count⟩
    else
      match generate_image tf args (env.behav t text) (filepath env t text) fs with
      | .error e => .error e
      | .ok (_, s, fs') =>
        match render_go env text args rest fs' with
        | .error e => .error e
        | .ok r => .ok ⟨if s then fileid env t text :: r.ids else r.ids, r.fs, r.count + 1⟩

/-- `render_images(text)` (lines 180-192), over a registry snapshot. -/
def render_images (env : RenderEnv) (snapshot : List (String × TemplateFile))
    (text : String) (fs : FS) : Except GenError RenderResult :=
  render_go env text (renderArgs text) snapshot fs

/-! ## Outbound delivery: `sendmsg` (87-100)

`sendmsg` strips the text; an empty result is logged and dropped with no
`bot_api` call; a result longer than 2000 characters is cut to its first
1999 characters plus the one-character marker `…`.  The model returns the
text handed to `bot_api('sendMessage', ...)`, or `none` when no delivery is
attempted at all.  Python counts code points and slices by code point, so
`List Char` operations over `String.data` match exactly.  `str.strip()`
removes leading and trailing whitespace; the model's whitespace set covers
the characters that can occur here (ASCII whitespace and NBSP). -/

def pyIsSpace (c : Char) : Bool :=
  c = ' ' || c = '\t' || c = '\n' || c = '\r' || c = '\x0b' || c = '\x0c' || c = '\xa0'

/-- Python `text.strip()`. -/
def pyStrip (s : String) : String :=
  String.mk (((s.data.dropWhile pyIsSpace).reverse.dropWhile pyIsSpace).reverse)

/-- The text payload `sendmsg` delivers via `bot_api`, or `none` when the
message is ignored (empty after stripping) and no `bot_api` call happens. -/
def sendmsg (text : String) : Option String :=
  let t := pyStrip text
  if t.data = [] then none
  else if t.data.length > 2000 then some (String.mk (t.data.take 1999 ++ ['…']))
  else some t

/-! ## Delivery retries: `bot_api` (68-85) and `async_func` (57-66)

`bot_api` loops `for att in range(3)`.  Per iteration the attempt outcome
is: a raised exception, an empty response body (`continue`), or a decoded
reply with an `ok` flag and a result.  On an exception the code sleeps
`(att + 1) * 2` seconds and retries only when `att < 1`; otherwise it
re-raises immediately.  If all three iterations `continue`, the variable
`ret` was never bound and the `ret['ok']` access raises `UnboundLocalError`
(modelled as `unboundRet`).  A decoded reply with `ok` false raises
`BotAPIFailed` without any retry.  The model records the number of HTTP
attempts made and the list of sleep durations. -/

inductive AttemptOutcome
  | exc
  | empty
  | reply (ok : Bool) (result : String)
deriving DecidableEq

inductive ApiError
  | netExc
  | apiFailed
  | unboundRet
deriving DecidableEq

/-- One `bot_api` call: `outcomes att` is what attempt number `att` would
observe; returns (result-or-exception, attempts made, sleeps performed). -/
def bot_api_iter (outcomes : Nat → AttemptOutcome) :
    Nat → Nat → Nat → List Nat → (Except ApiError (Bool × String)) × Nat × List Nat
  | 0, _, n, sl => (.error .unboundRet, n, sl)
  | fuel + 1, att, n, sl =>
    match outcomes att with
    | .exc =>
      if att < 1 then bot_api_iter outcomes fuel (att + 1) (n + 1) (sl ++ [(att + 1) * 2])
      else (.error .netExc, n + 1, sl)
    | .empty => bot_api_iter outcomes fuel (att + 1) (n + 1) sl
    | .reply ok res =>
      (if ok then .ok (ok, res) else .error .apiFailed, n + 1, sl)

def bot_api (outcomes : Nat → AttemptOutcome) :
    (Except ApiError (Bool × String)) × Nat × List Nat :=
  bot_api_iter outcomes 3 0 0 []

/-- The wrapper installed by the `@async_func` decorator: the submitted
task runs the function, catches every exception and only logs it, so no
failure ever reaches the Dispatch Loop. `none` means logged-and-dropped. -/
def asyncWrap {α : Type} (r : Except ApiError α) : Option α :=
  match r with
  | .error _ => none
  | .ok a => some a

/-! ## Template Registry: `update_templates` (135-141)

The function assigns a brand-new empty `OrderedDict` to the module-global
`template_cache` and only then iterates `os.listdir(CFG['templates'])`,
inserting every entry with extension `.svg`.  `os.listdir` either raises or
returns the whole listing, so the listing is an `Except` input.  When it
raises, the global has already been replaced by the empty dict and the
exception propagates.  The model returns (exception status with the final
registry on success, registry contents after the call). -/

/-- Split a character list at its last `'.'`: `some (before, dot-suffix)`. -/
def lastDotSplit : List Char → Option (List Char × List Char)
  | [] => none
  | c :: cs =>
    match lastDotSplit cs with
    | some (b, e) => some (c :: b, e)
    | none => if c = '.' then some ([], c :: cs) else none

/-- Python `os.path.splitext` on a bare filename: the extension starts at
the last dot, except that a name consisting of leading dots only has no
extension. -/
def splitext (s : String) : String × String :=
  match lastDotSplit s.data with
  | none => (s, "")
  | some (b, e) =>
    if b.all (fun c => c = '.') then (s, "") else (String.mk b, String.mk e)

example : splitext "a.svg" = ("a", ".svg") := rfl
example : splitext ".svg" = (".svg", "") := rfl
example : splitext "a.b.svg" = ("a.b", ".svg") := rfl
example : splitext "noext" = ("noext", "") := rfl

/-- `OrderedDict` insertion: an existing key keeps its position and gets
the new value, a new key is appended. -/
def odInsert (m : List (String × String)) (k v : String) : List (String × String) :=
  if m.any (fun p => p.1 = k) then m.map (fun p => if p.1 = k then (k, v) else p)
  else m ++ [(k, v)]

/-- `os.path.join(CFG['templates'], i)` for a relative entry name. -/
def pathjoin (dir name : String) : String := dir ++ "/" ++ name

/-- `update_templates()`: takes the previous registry (the value of the
global `template_cache` before the call) and the directory-listing outcome;
returns the propagated exception or the new registry, paired with the value
the global holds after the call returns or raises. -/
def update_templates (dir : String) (listing : Except Unit (List String))
    (cache : List (String × String)) :
    Except Unit (List (String × String)) × List (String × String) :=
  match listing with
  | .error e => (.error e, [])
  | .ok files =>
    let c := files.foldl
      (fun acc i =>
        if (splitext i).2 = ".svg" then odInsert acc (splitext i).1 (pathjoin dir i)
        else acc) []
    (.ok c, c)

example : (update_templates "d" (.ok ["b.svg", "x.txt", "a.svg"]) []).2
    = [("b", "d/b.svg"), ("a", "d/a.svg")] := rfl

/-! ## Path-shape lemmas

`hashstr` emits urlsafe base64 (`A-Z a-z 0-9 - _`) with `=` stripped, so a
hash value never contains `'.'`.  Theorems that need artifact paths to be
disjoint from intermediate `.png` paths assume exactly that of the hash
model. -/

/-- The hash model's outputs never contain a dot (true of `hashstr`). -/
def noDotHash (env : RenderEnv) : Prop :=
  ∀ s : String, (env.hash s).data.count '.' = 0

lemma filepath_count_dot (env : RenderEnv) (hnd : noDotHash env) (t text : String) :
    (filepath env t text).data.count '.' = env.imagesDir.data.count '.' + 1 := by
  have h3 := hnd (keystring t text)
  have h1 : (("/" : String).data).count '.' = 0 := by decide
  have h2 : ((".jpg" : String).data).count '.' = 1 := by decide
  unfold filepath fileid
  rw [strDataAppend, strDataAppend, strDataAppend, List.count_append, List.count_append,
    List.count_append, h1, h2, h3]

lemma filepath_ne_png (env : RenderEnv) (hnd : noDotHash env) (t text t' text' : String) :
    filepath env t text ≠ filepath env t' text' ++ ".png" := by
  intro h
  have hd := congrArg String.data h
  rw [strDataAppend] at hd
  have hc := congrArg (List.count '.') hd
  simp only [List.count_append] at hc
  rw [filepath_count_dot env hnd, filepath_count_dot env hnd] at hc
  have hp : ((".png" : String).data).count '.' = 1 := by decide
  rw [hp] at hc
  omega

lemma filepath_inj_ne (env : RenderEnv) (t text t' text' : String)
    (h : fileid env t text ≠ fileid env t' text') :
    filepath env t text ≠ filepath env t' text' := by
  intro he
  apply h
  have hd := congrArg String.data he
  unfold filepath at hd
  simp only [strDataAppend] at hd
  exact strExt (List.append_cancel_left (List.append_cancel_right hd))

lemma output_ne_png (s : String) : s ≠ s ++ ".png" :=
  str_ne_append_nonempty s ".png" (by decide)

/-! ## Inversion lemmas for `generate_image` -/

lemma generate_image_ok {tf : TemplateFile} {args : List String} {b : RenderBehavior}
    {output : String} {fs : FS} {doc : String} {s : Bool} {fs' : FS}
    (h : generate_image tf args b output fs = .ok (doc, s, fs')) :
    tf.readable = true ∧ formatStr tf.content.data args = .ok doc ∧
      ((b.stage1 = StageOutcome.ok ∧ s = decide (b.stage2 = StageOutcome.ok) ∧
          fs' = fsDel (stageEffect output b.stage2
            (stageEffect (output ++ ".png") b.stage1 fs)) (output ++ ".png")) ∨
        (b.stage1 ≠ StageOutcome.ok ∧ s = false ∧
          fs' = stageEffect (output ++ ".png") b.stage1 fs)) := by
  unfold generate_image at h
  split at h
  · exact Except.noConfusion h
  next hread =>
    have hr : tf.readable = true := by
      cases hx : tf.readable
      · exact absurd hx hread
      · rfl
    split at h
    · exact Except.noConfusion h
    next doc' hfmt =>
      split at h
      next h1 =>
        simp only [Except.ok.injEq, Prod.mk.injEq] at h
        exact ⟨hr, h.1 ▸ hfmt, Or.inl ⟨h1, h.2.1.symm, h.2.2.symm⟩⟩
      next h1 =>
        simp only [Except.ok.injEq, Prod.mk.injEq] at h
        exact ⟨hr, h.1 ▸ hfmt, Or.inr ⟨h1, h.2.1.symm, h.2.2.symm⟩⟩

lemma gen_success_iff {tf args b output fs doc} {s : Bool} {fs'}
    (h : generate_image tf args b output fs = .ok (doc, s, fs')) :
    s = true ↔ (b.stage1 = StageOutcome.ok ∧ b.stage2 = StageOutcome.ok) := by
  rcases generate_image_ok h with ⟨-, -, ⟨h1, hs, -⟩ | ⟨h1, hs, -⟩⟩
  · subst hs; simp [h1]
  · subst hs; simp [h1]

lemma gen_mono {tf args b output fs doc} {s : Bool} {fs'}
    (h : generate_image tf args b output fs = .ok (doc, s, fs'))
    (q : String) (hq : q ≠ output ++ ".png") (hsome : (fs q).isSome = true) :
    (fs' q).isSome = true := by
  rcases generate_image_ok h with ⟨-, -, ⟨-, -, hfs⟩ | ⟨-, -, hfs⟩⟩ <;> subst hfs
  · rw [fsDel_ne _ _ _ hq]
    exact stageEffect_isSome _ _ _ _ (stageEffect_isSome _ _ _ _ hsome)
  · exact stageEffect_isSome _ _ _ _ hsome

lemma gen_offpath {tf args b output fs doc} {s : Bool} {fs'}
    (h : generate_image tf args b output fs = .ok (doc, s, fs'))
    (q : String) (hq1 : q ≠ output) (hq2 : q ≠ output ++ ".png") :
    fs' q = fs q := by
  rcases generate_image_ok h with ⟨-, -, ⟨-, -, hfs⟩ | ⟨-, -, hfs⟩⟩ <;> subst hfs
  · rw [fsDel_ne _ _ _ hq2, stageEffect_ne _ _ _ _ hq1, stageEffect_ne _ _ _ _ hq2]
  · rw [stageEffect_ne _ _ _ _ hq2]

lemma gen_success_file {tf args b output fs doc fs'}
    (h : generate_image tf args b output fs = .ok (doc, true, fs')) :
    fs' output = some FileKind.complete := by
  rcases generate_image_ok h with ⟨-, -, ⟨h1, hs, hfs⟩ | ⟨-, hs, -⟩⟩
  · subst hfs
    have h2 : b.stage2 = StageOutcome.ok := of_decide_eq_true hs.symm
    rw [fsDel_ne _ _ _ (output_ne_png output), h2]
    simp [stageEffect, fsSet]
  · exact Bool.noConfusion hs

/-! ## Structural lemmas for `render_go` -/

lemma render_go_mono (env : RenderEnv) (text : String) (args : List String)
    (hnd : noDotHash env) :
    ∀ (snap : List (String × TemplateFile)) (fs : FS) (r : RenderResult),
      render_go env text args snap fs = .ok r →
      ∀ t₀ tx₀ : String, (fs (filepath env t₀ tx₀)).isSome = true →
        (r.fs (filepath env t₀ tx₀)).isSome = true := by
  intro snap
  induction snap with
  | nil =>
    intro fs r h t₀ tx₀ hs
    injection h with h'
    subst h'
    exact hs
  | cons q rest ih =>
    obtain ⟨t, tf⟩ := q
    intro fs r h t₀ tx₀ hs
    simp only [render_go] at h
    split at h
    · split at h
      · exact Except.noConfusion h
      next r' hrec =>
        injection h with h'
        subst h'
        exact ih fs r' hrec t₀ tx₀ hs
    · split at h
      · exact Except.noConfusion h
      next doc s fs' hgen =>
        split at h
        · exact Except.noConfusion h
        next r' hrec =>
          injection h with h'
          subst h'
          exact ih fs' r' hrec t₀ tx₀
            (gen_mono hgen _ (filepath_ne_png env hnd t₀ tx₀ t text) hs)

lemma render_go_allhit (env : RenderEnv) (text : String) (args : List String) :
    ∀ (snap : List (String × TemplateFile)) (fs : FS),
      (∀ q ∈ snap, (fs (filepath env q.1 text)).isSome = true) →
      render_go env text args snap fs
        = .ok ⟨snap.map (fun q => fileid env q.1 text), fs, 0⟩ := by
  intro snap
  induction snap with
  | nil => intro fs _; rfl
  | cons q rest ih =>
    obtain ⟨t, tf⟩ := q
    intro fs hall
    have hhead : (fs (filepath env t text)).isSome = true := hall (t, tf) (by simp)
    have hrest : ∀ q ∈ rest, (fs (filepath env q.1 text)).isSome = true :=
      fun q hq => hall q (by simp [hq])
    simp [render_go, hhead, ih fs hrest]

lemma render_go_len (env : RenderEnv) (text : String) (args : List String) :
    ∀ (snap : List (String × TemplateFile)) (fs : FS) (r : RenderResult),
      render_go env text args snap fs = .ok r → r.ids.length ≤ snap.length := by
  intro snap
  induction snap with
  | nil =>
    intro fs r h
    injection h with h'
    subst h'
    simp
  | cons q rest ih =>
    obtain ⟨t, tf⟩ := q
    intro fs r h
    simp only [render_go] at h
    split at h
    · split at h
      · exact Except.noConfusion h
      next r' hrec =>
        injection h with h'
        subst h'
        simpa using Nat.succ_le_succ (ih fs r' hrec)
    · split at h
      · exact Except.noConfusion h
      next doc s fs' hgen =>
        split at h
        · exact Except.noConfusion h
        next r' hrec =>
          injection h with h'
          subst h'
          have hr := ih fs' r' hrec
          cases s <;> simp <;> omega

lemma render_go_all (env : RenderEnv) (text : String) (args : List String)
    (hnd : noDotHash env) :
    ∀ (snap : List (String × TemplateFile)) (fs : FS) (r : RenderResult),
      render_go env text args snap fs = .ok r → r.ids.length = snap.length →
      r.ids = snap.map (fun q => fileid env q.1 text) ∧
        ∀ q ∈ snap, (r.fs (filepath env q.1 text)).isSome = true := by
  intro snap
  induction snap with
  | nil =>
    intro fs r h _
    injection h with h'
    subst h'
    simp
  | cons q rest ih =>
    obtain ⟨t, tf⟩ := q
    intro fs r h hlen
    simp only [render_go] at h
    split at h
    next hhit =>
      split at h
      · exact Except.noConfusion h
      next r' hrec =>
        injection h with h'
        subst h'
        simp only [List.length_cons] at hlen
        obtain ⟨hids, hfs⟩ := ih fs r' hrec (by simpa using hlen)
        refine ⟨by simp [hids], ?_⟩
        intro q hq
        rcases List.mem_cons.mp hq with hq | hq
        · subst hq
          exact render_go_mono env text args hnd rest fs r' hrec t text hhit
        · exact hfs q hq
    next hmiss =>
      split at h
      · exact Except.noConfusion h
      next doc s fs' hgen =>
        split at h
        · exact Except.noConfusion h
        next r' hrec =>
          injection h with h'
          subst h'
          cases s with
          | false =>
            have hr := render_go_len env text args rest fs' r' hrec
            simp only [if_neg] at hlen
            simp only [List.length_cons] at hlen
            simp only [Bool.false_eq_true, if_false] at hlen
            omega
          | true =>
            simp only [if_pos, List.length_cons] at hlen
            obtain ⟨hids, hfs⟩ := ih fs' r' hrec (by simpa using hlen)
            refine ⟨by simp [hids], ?_⟩
            intro q hq
            rcases List.mem_cons.mp hq with hq | hq
            · subst hq
              have hfile := gen_success_file hgen
              exact render_go_mono env text args hnd rest fs' r' hrec t text
                (by rw [hfile]; rfl)
            · exact hfs q hq

/-- Whether, relative to the filesystem at the start of a pipeline run, a
registry entry would be served from cache or rendered successfully. -/
def hitOrOk (env : RenderEnv) (text : String) (fs : FS) (q : String × TemplateFile) : Bool :=
  (fs (filepath env q.1 text)).isSome
    || decide (env.behav q.1 text = RenderBehavior.mk StageOutcome.ok StageOutcome.ok)

lemma render_go_filter (env : RenderEnv) (text : String) (args : List String)
    (hnd : noDotHash env) :
    ∀ (snap : List (String × TemplateFile)) (fs : FS) (r : RenderResult),
      (snap.map (fun q => fileid env q.1 text)).Nodup →
      render_go env text args snap fs = .ok r →
      r.ids = (snap.filter (hitOrOk env text fs)).map (fun q => fileid env q.1 text) := by
  intro snap
  induction snap with
  | nil =>
    intro fs r _ h
    injection h with h'
    subst h'
    simp
  | cons q rest ih =>
    obtain ⟨t, tf⟩ := q
    intro fs r hnodup h
    rw [List.map_cons] at hnodup
    obtain ⟨hnotin, hndrest⟩ := List.nodup_cons.mp hnodup
    simp only [render_go] at h
    split at h
    next hhit =>
      split at h
      · exact Except.noConfusion h
      next r' hrec =>
        injection h with h'
        subst h'
        have hhead : hitOrOk env text fs (t, tf) = true := by
          simp [hitOrOk, hhit]
        simp [List.filter_cons, hhead, ih fs r' hndrest hrec]
    next hmiss =>
      split at h
      · exact Except.noConfusion h
      next doc s fs' hgen =>
        split at h
        · exact Except.noConfusion h
        next r' hrec =>
          injection h with h'
          subst h'
          have hmiss' : (fs (filepath env t text)).isSome = false := by
            simpa using hmiss
          have hne : ∀ q' ∈ rest, fileid env q'.1 text ≠ fileid env t text := by
            intro q' hq' heq
            exact hnotin (heq ▸ List.mem_map_of_mem (fun q => fileid env q.1 text) hq')
          have htrans : ∀ q' ∈ rest, hitOrOk env text fs' q' = hitOrOk env text fs q' := by
            intro q' hq'
            unfold hitOrOk
            rw [gen_offpath hgen _
              (filepath_inj_ne env _ _ _ _ (hne q' hq'))
              (filepath_ne_png env hnd q'.1 text t text)]
          have hItail := ih fs' r' hndrest hrec
          rw [List.filter_congr htrans] at hItail
          have hs : hitOrOk env text fs (t, tf) = s := by
            have hiff := gen_success_iff hgen
            have hbe : (env.behav t text = RenderBehavior.mk StageOutcome.ok StageOutcome.ok)
                ↔ ((env.behav t text).stage1 = StageOutcome.ok
                    ∧ (env.behav t text).stage2 = StageOutcome.ok) := by
              cases hb : env.behav t text
              simp_all
            cases s with
            | true =>
              have := hbe.mpr (hiff.mp rfl)
              simp [hitOrOk, this]
            | false =>
              have hne2 : ¬ env.behav t text = RenderBehavior.mk StageOutcome.ok StageOutcome.ok := by
                intro hcon
                have := hiff.mpr (hbe.mp hcon)
                simp at this
              simp [hitOrOk, hmiss', hne2]
          cases s with
          | true =>
            simp [List.filter_cons, hs, hItail]
          | false =>
            simp [List.filter_cons, hs, hItail]

/-! ## Claim C2: artifact-key determinism and pair-injectivity -/

lemma pipe_injective : ∀ (a b u v : List Char),
    '|' ∉ a → '|' ∉ b → a ++ '|' :: u = b ++ '|' :: v → a = b ∧ u = v := by
  intro a
  induction a with
  | nil =>
    intro b u v _ hb h
    cases b with
    | nil => simpa using h
    | cons c cs =>
      simp only [List.nil_append, List.cons_append] at h
      injection h with h1 h2
      exact absurd (h1 ▸ List.mem_cons_self c cs) hb
  | cons c cs ih =>
    intro b u v ha hb h
    cases b with
    | nil =>
      simp only [List.cons_append, List.nil_append] at h
      injection h with h1 h2
      exact absurd (h1 ▸ List.mem_cons_self c cs) ha
    | cons d ds =>
      simp only [List.cons_append] at h
      injection h with h1 h2
      have ha' : '|' ∉ cs := fun hm => ha (List.mem_cons_of_mem c hm)
      have hb' : '|' ∉ ds := fun hm => hb (List.mem_cons_of_mem d hm)
      obtain ⟨he, hu⟩ := ih ds u v ha' hb' h2
      exact ⟨by rw [h1, he], hu⟩

/-- C2 counterexample: the claimed equivalence
`ArtifactKey(t1, s1) = ArtifactKey(t2, s2) ↔ t1 = t2 ∧ s1 = s2` fails even
for an injective (collision-free) hash model: the delimiter `|` may occur
in a template name, and the pairs `("a|b", "c")` and `("a", "b|c")` hash
the very same string `"a|b|c"`, yielding equal keys for distinct pairs ---
not a hash collision. -/
theorem artifactKey_pair_collision :
    artifactKey (fun s => s) "a|b" "c" = artifactKey (fun s => s) "a" "b|c" ∧
    ¬ ("a|b" = "a" ∧ "c" = "b|c") ∧
    Function.Injective (fun s : String => s) :=
  ⟨by decide, by decide, fun _ _ h => h⟩

/-- C2 (amended): for a collision-free hash model and template names that do
not contain the delimiter `'|'` (true of every template the registry can
load, see C6's model, as long as filenames avoid `'|'`), the key
`hash(template ++ "|" ++ text)` determines and is determined by the pair:
`ArtifactKey(t1, s1) = ArtifactKey(t2, s2) ↔ t1 = t2 ∧ s1 = s2`. -/
theorem artifactKey_inj_of_pipe_free (hash : String → String)
    (hinj : Function.Injective hash) (t1 s1 t2 s2 : String)
    (h1 : '|' ∉ t1.data) (h2 : '|' ∉ t2.data) :
    artifactKey hash t1 s1 = artifactKey hash t2 s2 ↔ (t1 = t2 ∧ s1 = s2) := by
  constructor
  · intro h
    have hk := hinj h
    have hd := congrArg String.data hk
    unfold keystring at hd
    simp only [strDataAppend] at hd
    rw [List.append_assoc, List.append_assoc] at hd
    simp only [List.singleton_append] at hd
    obtain ⟨ht, hs⟩ := pipe_injective t1.data t2.data s1.data s2.data h1 h2 hd
    exact ⟨strExt ht, strExt hs⟩
  · rintro ⟨rfl, rfl⟩
    rfl

/-- Witness for C2: concrete distinct pipe-free pairs produce distinct keys. -/
theorem artifactKey_inj_witness :
    artifactKey (fun s => s) "greet" "x" ≠ artifactKey (fun s => s) "other" "x" := by
  intro h
  have hp := (artifactKey_inj_of_pipe_free (fun s => s) (fun _ _ hh => hh)
    "greet" "x" "other" "x" (by decide) (by decide)).mp h
  exact absurd hp.1 (by decide)

/-! ## Claim C3: artifact atomicity at the final path -/

/-- C3 counterexample: the convert stage writes directly to the final
artifact path, so a convert run that dies after partially writing its
output (`failDirty`) leaves a fragment visible under the final name while
`generate_image` reports failure --- the claimed write-to-temporary-then-
materialize discipline does not hold for the final path. -/
theorem generate_image_fragment_at_final_path :
    (generate_image ⟨true, "x"⟩ ["a"] ⟨StageOutcome.ok, StageOutcome.failDirty⟩
        "d/o.jpg" emptyFS).map (fun r => (r.2.1, r.2.2 "d/o.jpg"))
      = Except.ok (false, some FileKind.fragment) ∧
    emptyFS "d/o.jpg" = none :=
  ⟨rfl, rfl⟩

/-- C3 (amended): the temporary-location discipline holds for everything
but the final path: a fully successful run leaves a complete file at the
final path, and an inkscape-stage failure leaves the final path untouched;
but the convert stage targets the final artifact path directly, so a dirty
convert failure can leave a fragment there (see the counterexample). -/
theorem generate_image_final_path_discipline (tf : TemplateFile)
    (args : List String) (b : RenderBehavior) (output : String) (fs : FS) :
    (∀ doc fs', generate_image tf args b output fs = .ok (doc, true, fs') →
      fs' output = some FileKind.complete) ∧
    (∀ doc s fs', b.stage1 ≠ StageOutcome.ok →
      generate_image tf args b output fs = .ok (doc, s, fs') →
      fs' output = fs output) := by
  constructor
  · intro doc fs' h
    exact gen_success_file h
  · intro doc s fs' h1 h
    rcases generate_image_ok h with ⟨-, -, ⟨h1', -, -⟩ | ⟨-, -, hfs⟩⟩
    · exact absurd h1' h1
    · subst hfs
      exact stageEffect_ne _ _ _ _ (output_ne_png output)

/-- Witness for C3 (amended) at concrete runs: a fully successful run
creates the complete final artifact; a first-stage failure leaves the
final path absent. -/
theorem generate_image_final_path_witness :
    (∃ fs', generate_image ⟨true, "x"⟩ ["a"] ⟨StageOutcome.ok, StageOutcome.ok⟩
        "o.jpg" emptyFS = Except.ok ("x", true, fs') ∧
      fs' "o.jpg" = some FileKind.complete) ∧
    (∃ fs', generate_image ⟨true, "x"⟩ ["a"] ⟨StageOutcome.failClean, StageOutcome.ok⟩
        "o.jpg" emptyFS = Except.ok ("x", false, fs') ∧
      fs' "o.jpg" = emptyFS "o.jpg") := by
  constructor
  · refine ⟨_, rfl, ?_⟩
    exact (generate_image_final_path_discipline ⟨true, "x"⟩ ["a"]
      ⟨StageOutcome.ok, StageOutcome.ok⟩ "o.jpg" emptyFS).1 "x" _ rfl
  · refine ⟨_, rfl, ?_⟩
    exact (generate_image_final_path_discipline ⟨true, "x"⟩ ["a"]
      ⟨StageOutcome.failClean, StageOutcome.ok⟩ "o.jpg" emptyFS).2 "x" false _
      (by decide) rfl

/-! ## Claim C4: renderer error containment -/

/-- C4 counterexample: `generate_image` does propagate exceptions to its
caller.  A template whose placeholder index is out of range for the
argument list makes `str.format` raise (line 145, outside any `try`), and
an unreadable template file makes `open` raise (line 144): in both cases
the caller sees an exception, not a `False` return. -/
theorem generate_image_exception_escapes :
    generate_image ⟨true, "\x7b5\x7d"⟩ ["a", "b"]
        ⟨StageOutcome.ok, StageOutcome.ok⟩ "o" emptyFS
      = Except.error GenError.formatError ∧
    generate_image ⟨false, "x"⟩ ["a"]
        ⟨StageOutcome.ok, StageOutcome.ok⟩ "o" emptyFS
      = Except.error GenError.templateUnreadable :=
  ⟨rfl, rfl⟩

/-- C4 (amended): once the template file is readable and the placeholder
substitution succeeds, no converter failure (non-zero exit, timeout, kill)
ever propagates an exception: `generate_image` returns a boolean, and it
returns `true` exactly when both conversion stages succeeded. -/
theorem generate_image_contains_converter_failures (tf : TemplateFile)
    (args : List String) (b : RenderBehavior) (output : String) (fs : FS)
    (doc : String) (hr : tf.readable = true)
    (hf : formatStr tf.content.data args = .ok doc) :
    ∃ (s : Bool) (fs' : FS), generate_image tf args b output fs = .ok (doc, s, fs') ∧
      (s = true ↔ (b.stage1 = StageOutcome.ok ∧ b.stage2 = StageOutcome.ok)) := by
  unfold generate_image
  rw [hr, hf]
  by_cases h1 : b.stage1 = StageOutcome.ok
  · simp only [Bool.true_eq_false, if_false, h1, if_true]
    exact ⟨_, _, rfl, by simp [h1]⟩
  · simp only [Bool.true_eq_false, if_false, if_neg h1]
    exact ⟨false, _, rfl, by simp [h1]⟩

/-- Witness for C4 (amended) on a concrete readable template with a failing
convert stage: the call returns `ok` with result `false`, no exception. -/
theorem generate_image_contains_witness :
    ∃ (s : Bool) (fs' : FS),
      generate_image ⟨true, "x"⟩ [] ⟨StageOutcome.ok, StageOutcome.failClean⟩
          "o" emptyFS = Except.ok ("x", s, fs') ∧
      (s = true ↔ (StageOutcome.ok = StageOutcome.ok
        ∧ StageOutcome.failClean = StageOutcome.ok)) :=
  generate_image_contains_converter_failures ⟨true, "x"⟩ []
    ⟨StageOutcome.ok, StageOutcome.failClean⟩ "o" emptyFS "x" rfl rfl

/-! ## Claim C6: registry reload on failure -/

/-- C6 counterexample: `update_templates` installs a brand-new empty
mapping in the global `template_cache` before scanning the directory
(line 137), so when the scan raises the registry is left empty --- the
previous snapshot, here a one-entry registry, is not retained. -/
theorem update_templates_failure_clears_registry :
    (update_templates "d" (Except.error ()) [("t", "d/t.svg")]).2 = [] ∧
    ([("t", "d/t.svg")] : List (String × String)) ≠ [] :=
  ⟨rfl, by decide⟩

/-- C6 (amended): a reload whose directory scan fails leaves the registry
empty (not the previous snapshot) and propagates the exception; moreover a
reload's outcome never depends on the previous snapshot in any way (each
reload rebuilds from scratch). -/
theorem update_templates_failure_behavior (dir : String) (e : Unit)
    (cache cache' : List (String × String)) (listing : List String) :
    update_templates dir (Except.error e) cache = (Except.error e, []) ∧
    update_templates dir (Except.ok listing) cache
      = update_templates dir (Except.ok listing) cache' :=
  ⟨rfl, rfl⟩

/-! ## Claim C7: positional argument expansion -/

/-- C7: the argument list handed to `generate_image` is the full request
text at position 0 followed by the slash-separated segments, and on the
spec's concrete scenario --- text `"Hello/World"`, template `"{0}-{1}"` ---
the expanded document is `"Hello/World-Hello"`. -/
theorem renderArgs_expansion :
    (∀ text : String, renderArgs text = text :: splitSlash text) ∧
    renderArgs "Hello/World" = ["Hello/World", "Hello", "World"] ∧
    (generate_image ⟨true, "\x7b0\x7d-\x7b1\x7d"⟩ (renderArgs "Hello/World")
        ⟨StageOutcome.ok, StageOutcome.ok⟩ "o.jpg" emptyFS).map (fun r => r.1)
      = Except.ok "Hello/World-Hello" :=
  ⟨fun _ => rfl, rfl, rfl⟩

/-! ## Claim C8: delivery retry policy -/

/-- C8 counterexample: a delivery whose HTTP attempts keep raising is given
up after 2 attempts, not 3: the code retries (after a 2-second backoff)
only when `att < 1`, so the exception of attempt index 1 is re-raised
immediately (line 82). -/
theorem bot_api_gives_up_after_two :
    bot_api (fun _ => AttemptOutcome.exc)
      = (Except.error ApiError.netExc, 2, [2]) ∧ (2 : Nat) ≠ 3 :=
  ⟨rfl, by decide⟩

/-- C8 (amended): the actual retry policy of `bot_api`: an attempt that
raises is retried once after a fixed 2-second backoff and a second raise
propagates (2 attempts total); only the empty-response path uses all 3
loop iterations, with no backoff, after which the code raises
`UnboundLocalError` (`ret` was never bound); a decoded reply ends the loop
on the first attempt, raising `BotAPIFailed` when its `ok` flag is false;
and the `async_func` wrapper turns any raised failure into a logged no-op,
never surfacing it to the Dispatch Loop. -/
theorem bot_api_retry_policy (o o' o'' : Nat → AttemptOutcome)
    (ha0 : o 0 = AttemptOutcome.exc) (ha1 : o 1 = AttemptOutcome.exc)
    (hb0 : o' 0 = AttemptOutcome.empty) (hb1 : o' 1 = AttemptOutcome.empty)
    (hb2 : o' 2 = AttemptOutcome.empty)
    (okc : Bool) (resc : String) (hc0 : o'' 0 = AttemptOutcome.reply okc resc) :
    bot_api o = (Except.error ApiError.netExc, 2, [2]) ∧
    bot_api o' = (Except.error ApiError.unboundRet, 3, []) ∧
    bot_api o'' = (if okc then Except.ok (okc, resc)
      else Except.error ApiError.apiFailed, 1, []) ∧
    (∀ e : ApiError, asyncWrap (Except.error e : Except ApiError (Bool × String)) = none) := by
  refine ⟨?_, ?_, ?_, fun e => rfl⟩
  · simp [bot_api, bot_api_iter, ha0, ha1]
  · simp [bot_api, bot_api_iter, hb0, hb1, hb2]
  · simp [bot_api, bot_api_iter, hc0]

/-- Witness for C8 (amended) on concrete outcome sequences. -/
theorem bot_api_retry_policy_witness :
    bot_api (fun _ => AttemptOutcome.exc)
      = (Except.error ApiError.netExc, 2, [2]) ∧
    bot_api (fun _ => AttemptOutcome.empty)
      = (Except.error ApiError.unboundRet, 3, []) := by
  have h := bot_api_retry_policy (fun _ => AttemptOutcome.exc)
    (fun _ => AttemptOutcome.empty) (fun _ => AttemptOutcome.reply true "r")
    rfl rfl rfl rfl rfl true "r" rfl
  exact ⟨h.1, h.2.1⟩

/-! ## Claim C9: reply truncation -/

/-- C9 counterexample: a text that is whitespace-only strips to the empty
string, whose length is at most 2000, yet it is not delivered at all
(empty messages are suppressed), contradicting "any stripped text of
length at most 2000 is delivered unmodified". -/
theorem sendmsg_short_but_not_delivered :
    (pyStrip "  ").data.length ≤ 2000 ∧ sendmsg "  " = none :=
  ⟨by decide, rfl⟩

/-- C9 (amended): a stripped text longer than 2000 characters is delivered
as its first 1999 characters followed by the one-character marker `…`
(total length 2000); a nonempty stripped text of length at most 2000 is
delivered unmodified (the empty stripped text is not delivered, see C10). -/
theorem sendmsg_truncation (text : String) :
    ((pyStrip text).data.length > 2000 →
      sendmsg text = some (String.mk ((pyStrip text).data.take 1999 ++ ['…'])) ∧
      (String.mk ((pyStrip text).data.take 1999 ++ ['…'])).data.length = 2000) ∧
    ((pyStrip text).data ≠ [] → (pyStrip text).data.length ≤ 2000 →
      sendmsg text = some (pyStrip text)) := by
  constructor
  · intro hlong
    have hne : (pyStrip text).data ≠ [] := by
      intro h0
      rw [h0] at hlong
      simp at hlong
    constructor
    · simp only [sendmsg]
      rw [if_neg hne, if_pos hlong]
    · simp only [List.length_append, List.length_take, List.length_cons,
        List.length_nil]
      omega
  · intro hne hshort
    simp only [sendmsg]
    rw [if_neg hne, if_neg (by omega : ¬ (pyStrip text).data.length > 2000)]

lemma dropWhile_of_no_space (m : List Char) (hm : ∀ c ∈ m, pyIsSpace c = false) :
    m.dropWhile pyIsSpace = m := by
  cases m with
  | nil => rfl
  | cons a m' =>
    rw [List.dropWhile_cons, hm a (List.mem_cons_self a m')]
    simp

lemma pyStrip_no_space_fixed (l : List Char) (h : ∀ c ∈ l, pyIsSpace c = false) :
    pyStrip (String.mk l) = String.mk l := by
  unfold pyStrip
  rw [show (String.mk l).data = l from rfl, dropWhile_of_no_space l h,
    dropWhile_of_no_space l.reverse (fun c hc => h c (List.mem_reverse.mp hc)),
    List.reverse_reverse]

/-- Witness for C9 on the spec's scenario: a 2050-character reply is
delivered as 1999 characters plus the marker, total 2000. -/
theorem sendmsg_truncation_witness :
    sendmsg (String.mk (List.replicate 2050 'a'))
      = some (String.mk (List.replicate 1999 'a' ++ ['…'])) ∧
    (List.replicate 1999 'a' ++ ['…']).length = 2000 := by
  have hall : ∀ c ∈ List.replicate 2050 'a', pyIsSpace c = false := by
    intro c hc
    rw [List.eq_of_mem_replicate hc]
    rfl
  have hstrip := pyStrip_no_space_fixed (List.replicate 2050 'a') hall
  have hlong : (pyStrip (String.mk (List.replicate 2050 'a'))).data.length > 2000 := by
    rw [hstrip, show (String.mk (List.replicate 2050 'a')).data
      = List.replicate 2050 'a' from rfl, List.length_replicate]
    omega
  have h := (sendmsg_truncation (String.mk (List.replicate 2050 'a'))).1 hlong
  rw [hstrip] at h
  refine ⟨h.1.trans ?_, by rw [List.length_append, List.length_replicate]; rfl⟩
  rw [show (String.mk (List.replicate 2050 'a')).data
    = List.replicate 2050 'a' from rfl, List.take_replicate]
  norm_num

/-! ## Claim C10: empty replies are suppressed -/

/-- C10: a `sendmsg` call whose text strips to the empty string attempts no
outbound delivery at all: no `bot_api` call is made (the model's `none`),
the function just logs and returns. -/
theorem sendmsg_empty_suppressed (text : String) (h : pyStrip text = "") :
    sendmsg text = none := by
  simp only [sendmsg]
  rw [h]
  rfl

/-- Witness for C10 on a concrete whitespace-only text. -/
theorem sendmsg_empty_suppressed_witness : sendmsg " \t" = none :=
  sendmsg_empty_suppressed " \t" (by decide)

/-! ## Claim C1: idempotent caching -/

def c1FailEnv : RenderEnv :=
  ⟨fun _ => "h", "d", fun _ _ => ⟨StageOutcome.failClean, StageOutcome.failClean⟩⟩

def c1FailSnap : List (String × TemplateFile) := [("t", ⟨true, "x"⟩)]

def c1OkEnv : RenderEnv :=
  ⟨fun _ => "h", "d", fun _ _ => ⟨StageOutcome.ok, StageOutcome.ok⟩⟩

def c1OkSnap : List (String × TemplateFile) := [("t", ⟨true, "x"⟩)]

/-- C1 counterexample: with a single template whose render fails cleanly,
the first call returns no ids and leaves the filesystem unchanged; the
second identical call then performs 1 `generate_image` invocation, not 0
(there is no negative caching: a failed render is re-attempted), refuting
"the second call invokes the External Renderer zero times". -/
theorem render_images_rerenders_failures :
    render_images c1FailEnv c1FailSnap "a" emptyFS = Except.ok ⟨[], emptyFS, 1⟩ ∧
    render_images c1FailEnv c1FailSnap "a" (RenderResult.mk [] emptyFS 1).fs
      = Except.ok ⟨[], emptyFS, 1⟩ ∧
    (1 : Nat) ≠ 0 :=
  ⟨rfl, rfl, by decide⟩

/-- C1 (amended): whenever the first call produced an artifact for every
registered template (every template was a cache hit or rendered
successfully, i.e. it returned as many ids as there are templates), a
second call with the same text returns the same ordered id sequence, the
same filesystem, and performs zero `generate_image` invocations --- each
template costs one existence check only.  (A template that failed is
re-attempted on the second call; the hash model is dot-free like urlsafe
base64.) -/
theorem render_images_second_call_cached
    (env : RenderEnv) (snap : List (String × TemplateFile)) (text : String)
    (fs : FS) (r : RenderResult) (hnd : noDotHash env)
    (h1 : render_images env snap text fs = .ok r)
    (hall : r.ids.length = snap.length) :
    render_images env snap text r.fs = .ok ⟨r.ids, r.fs, 0⟩ := by
  obtain ⟨hids, hfs⟩ := render_go_all env text (renderArgs text) hnd snap fs r h1 hall
  have h2 := render_go_allhit env text (renderArgs text) snap r.fs hfs
  unfold render_images
  rw [h2, hids]

/-- Witness for C1 (amended): one template, successful render on the first
call; the second call returns the same sequence with zero renders. -/
theorem render_images_second_call_cached_witness :
    ∃ r, render_images c1OkEnv c1OkSnap "a" emptyFS = Except.ok r ∧
      render_images c1OkEnv c1OkSnap "a" r.fs = Except.ok ⟨r.ids, r.fs, 0⟩ := by
  refine ⟨_, rfl, ?_⟩
  exact render_images_second_call_cached c1OkEnv c1OkSnap "a" emptyFS _
    (fun _ => rfl) rfl (by decide)

/-! ## Claim C5: partial-failure isolation in registry order -/

def c5hash (s : String) : String :=
  String.mk (s.data.filter (fun c => decide (c ≠ '.')))

def c5Env : RenderEnv :=
  ⟨c5hash, "d", fun t _ =>
    if t = "a" then ⟨StageOutcome.failClean, StageOutcome.failClean⟩
    else ⟨StageOutcome.ok, StageOutcome.ok⟩⟩

def c5Snap : List (String × TemplateFile) := [("a", ⟨true, "x"⟩), ("b", ⟨true, "x"⟩)]

lemma c5_noDot : noDotHash c5Env := by
  intro s
  show (List.filter (fun c => decide (c ≠ '.')) s.data).count '.' = 0
  rw [List.count_eq_zero]
  intro hmem
  have h2 := (List.mem_filter.mp hmem).2
  simp at h2

/-- C5: for a registry snapshot whose artifact keys are pairwise distinct
(no hash collision; the hash output is dot-free like urlsafe base64), a
`render_images` call that raises no exception returns exactly the ids of
the templates that were cache hits or rendered successfully, in registry
order, with failed templates silently omitted. -/
theorem render_images_partial_failure_isolation
    (env : RenderEnv) (snap : List (String × TemplateFile)) (text : String)
    (fs : FS) (r : RenderResult) (hnd : noDotHash env)
    (hnodup : (snap.map (fun q => fileid env q.1 text)).Nodup)
    (h : render_images env snap text fs = .ok r) :
    r.ids = (snap.filter (hitOrOk env text fs)).map (fun q => fileid env q.1 text) :=
  render_go_filter env text (renderArgs text) hnd snap fs r hnodup h

/-- Witness for C5: two templates where the first fails and the second
succeeds; the pipeline returns exactly the second one's id. -/
theorem render_images_partial_failure_witness :
    ∃ r, render_images c5Env c5Snap "t" emptyFS = Except.ok r ∧
      r.ids = (c5Snap.filter (hitOrOk c5Env "t" emptyFS)).map
        (fun q => fileid c5Env q.1 "t") ∧
      (c5Snap.filter (hitOrOk c5Env "t" emptyFS)).map (fun q => fileid c5Env q.1 "t")
        = ["b|t"] := by
  refine ⟨_, rfl, ?_, by decide⟩
  exact render_images_partial_failure_isolation c5Env c5Snap "t" emptyFS _
    c5_noDot (by decide) rfl
